import Mathlib

/-
  Verification of the nestjs-telegram repository.

  The repository exposes the Telegram Bot HTTP API as injectable service
  methods.  Two variants of the service exist in the sources:
    * src/telegram.service.ts        - stream (Observable) variant,
    * src/telegram/telegram.service.ts - promise-capable variant whose
      doCall additionally reads a per-call options object.

  Both funnel every facade method through a private doCall that posts to
  a URL built from the bot token, unwraps the Telegram response envelope
  inside an rxjs map operator, and rewraps any error in a catchError
  operator.  The development below embeds that dispatch logic shallowly
  and settles the frozen claims about it.
-/

/-- JavaScript runtime values as far as the dispatch logic observes them:
JSON-shaped data plus Node Buffer objects (binary file content).  The
per-method content-type decisions inspect fields of such values with the
typeof operator. -/
inductive JsValue where
  | null
  | bool (b : Bool)
  | num (n : Int)
  | str (s : String)
  | buffer (bytes : List Nat)
  | arr (elems : List JsValue)
  | obj (fields : List (String × JsValue))
  deriving Repr

/-- Property access obj.key in JavaScript: a field lookup on an object,
returning none for undefined (absent field or non-object receiver). -/
def jsGet : JsValue → String → Option JsValue
  | JsValue.obj fields, key => (fields.find? (fun p => p.1 == key)).map (fun p => p.2)
  | _, _ => none

/-- The test typeof x === obj-string used by the facade methods: true for
objects (Buffers, plain objects, arrays and null), false for strings,
numbers, booleans and undefined. -/
def typeofIsObject : Option JsValue → Bool
  | some JsValue.null => true
  | some (JsValue.buffer _) => true
  | some (JsValue.arr _) => true
  | some (JsValue.obj _) => true
  | _ => false

/-- The Telegram response envelope, from TelegramResponse<T> in
interfaces/telegramTypes.interface: ok is required, the other three
fields are optional. -/
structure TelegramResponse where
  ok : Bool
  result : Option JsValue
  error_code : Option Int
  description : Option String
  deriving Repr

/-- The exception class thrown by doCall.  In the source TelegramException
extends the NestJS BadRequestException with constructor arguments
(message?, error?).  The message field below is the string the Error
hierarchy derives for it (used when the exception is read back as an
Error inside catchError); the error field keeps the second constructor
argument, none when it was not supplied. -/
structure TelegramException where
  message : String
  error : Option String
  deriving Repr, DecidableEq

/-- Constructor semantics of TelegramException, modelling the NestJS
HttpException message derivation: a string first argument becomes the
Error message; an undefined first argument falls back to the second
argument, and failing that to the BadRequest default reason phrase. -/
def mkTelegramException : Option String → Option String → TelegramException
  | some s, err => TelegramException.mk s err
  | none, some e => TelegramException.mk e (some e)
  | none, none => TelegramException.mk "Bad Request" none

/-- Errors that can travel down the rxjs pipe into catchError: the
TelegramException thrown by the map stage, a TypeError raised by
evaluating a property of undefined, or the error of the HTTP transport
itself. -/
inductive JsError where
  | telegramError (e : TelegramException)
  | typeError (message : String)
  | transportError (message : String)
  deriving Repr, DecidableEq

/-- What error.message reads for each error kind inside catchError. -/
def JsError.getMessage : JsError → String
  | JsError.telegramError e => e.message
  | JsError.typeError m => m
  | JsError.transportError m => m

/-- Stand-in for the engine message of the TypeError raised when
error_code.toString() is evaluated while error_code is undefined. -/
def typeErrorMessageToString : String :=
  "Cannot read properties of undefined (reading toString)"

/-- What the HTTP transport produces for one POST: either an axios
response whose parsed body is a Telegram envelope, or a transport
failure carrying the message of the underlying error. -/
inductive TransportResult where
  | response (env : TelegramResponse)
  | failure (message : String)
  deriving Repr

/-- The map operator of doCall (telegram.service.ts lines 32-40 and
telegram/telegram.service.ts lines 33-41): when the envelope is not ok,
throw TelegramException(description, error_code.toString()) - reading
toString off an absent error_code raises a TypeError instead - and
otherwise emit the result field of the envelope unchanged. -/
def mapStage (env : TelegramResponse) : Except JsError (Option JsValue) :=
  if !env.ok then
    match env.error_code with
    | some code =>
        Except.error (JsError.telegramError
          (mkTelegramException env.description (some (toString code))))
    | none => Except.error (JsError.typeError typeErrorMessageToString)
  else
    Except.ok env.result

/-- The catchError operator of doCall (telegram.service.ts lines 41-44):
any error reaching it - including the TelegramException thrown by the
map stage just above it - is rewrapped as TelegramException(error.message)
with no second argument. -/
def catchErrorStage : Except JsError (Option JsValue) → Except TelegramException (Option JsValue)
  | Except.ok v => Except.ok v
  | Except.error e => Except.error (mkTelegramException (some e.getMessage) none)

/-- End-to-end outcome of one doCall subscription as a function of what
the transport did: a transport failure enters the pipe as an error and
hits catchError directly; a response runs through map then catchError. -/
def doCallOutcome : TransportResult → Except TelegramException (Option JsValue)
  | TransportResult.response env => catchErrorStage (mapStage env)
  | TransportResult.failure m => catchErrorStage (Except.error (JsError.transportError m))

/-- The envelope of the end-to-end failure scenario of the spec:
ok false, error_code 400, description Bad request. -/
def badRequestEnvelope : TelegramResponse :=
  TelegramResponse.mk false none (some 400) (some "Bad request")

/-- The message object of the end-to-end success scenario of the spec. -/
def sampleMessage : JsValue :=
  JsValue.obj
    [("message_id", JsValue.num 4587),
     ("chat", JsValue.obj [("id", JsValue.num 8754), ("type", JsValue.str "group")]),
     ("date", JsValue.num 45778965)]

/-- C5: for every method, an envelope with ok true makes doCall deliver
exactly the envelope result field to the caller, unmodified, whatever the
other envelope fields hold; in particular the sendMessage scenario
envelope resolves with exactly its message object. -/
theorem c5_ok_envelope_delivers_result :
    (∀ (r : Option JsValue) (ec : Option Int) (d : Option String),
      doCallOutcome (TransportResult.response (TelegramResponse.mk true r ec d)) =
        Except.ok r) ∧
    doCallOutcome (TransportResult.response
        (TelegramResponse.mk true (some sampleMessage) none none)) =
      Except.ok (some sampleMessage) := by
  constructor
  · intro r ec d
    rfl
  · rfl

/-- C6: when the transport call itself fails, doCall fails with a
TelegramException whose message is the transport error message and which
carries no error code. -/
theorem c6_transport_failure_wrapped :
    ∀ m : String,
      doCallOutcome (TransportResult.failure m) =
        Except.error (TelegramException.mk m none) := by
  intro m
  rfl

/-- C1 (counterexample evaluation): on the envelope with ok false,
error_code 400 and description Bad request, the map stage does construct
TelegramException(Bad request, 400), but the catchError stage of the same
pipe rewraps it, so the delivered exception carries the message Bad
request and no code: the stringified code 400 is dropped. -/
theorem c1_error_code_dropped_by_rewrap :
    mapStage badRequestEnvelope =
      Except.error (JsError.telegramError
        (TelegramException.mk "Bad request" (some "400"))) ∧
    doCallOutcome (TransportResult.response badRequestEnvelope) =
      Except.error (TelegramException.mk "Bad request" none) ∧
    (TelegramException.mk "Bad request" none).error ≠ some "400" := by
  refine ⟨rfl, rfl, ?_⟩
  decide

/-- C10: when the envelope has ok false and no error_code field, the map
stage raises a TypeError while evaluating error_code.toString(), the
catchError stage rewraps it, and the call fails with a TelegramException
carrying the TypeError message and no code - the envelope description,
whatever it was, is lost. -/
theorem c10_missing_error_code_type_error :
    ∀ (r : Option JsValue) (d : Option String),
      doCallOutcome (TransportResult.response (TelegramResponse.mk false r none d)) =
        Except.error (TelegramException.mk typeErrorMessageToString none) := by
  intro r d
  rfl

/-- The facade methods of the stream-variant TelegramService
(src/telegram.service.ts), one constructor per public API method. -/
inductive Method where
  | getUpdates | getMe | sendMessage | forwardMessage
  | sendPhoto | sendAudio | sendDocument | sendVideo | sendAnimation
  | sendVoice | sendVideoNote | sendMediaGroup | sendLocation
  | editMessageLiveLocation | stopMessageLiveLocation
  | sendVenue | sendContact | sendPoll | sendChatAction
  | getUserProfilePhotos | getFile
  | kickChatMember | unbanChatMember | restrictChatMember | promoteChatMember
  | exportChatInviteLink | setChatPhoto | deleteChatPhoto
  | setChatTitle | setChatDescription | pinChatMessage | unpinChatMessage
  | leaveChat | getChat | getChatAdministrators | getChatMembersCount
  | getChatMember | setChatStickerSet | deleteChatStickerSet
  | answerCallbackQuery | editMessageText | editMessageCaption
  | editMessageMedia | editMessageReplyMarkup | stopPoll | deleteMessage
  | sendSticker | getStickerSet | uploadStickerFile
  | createNewStickerSet | addStickerToSet
  | setStickerPositionInSet | deleteStickerFromSet
  | sendInvoice | answerShippingQuery | answerPreCheckoutQuery
  | sendGame | setGameScore | getGameHighScore
  deriving Repr, DecidableEq

/-- The name of each facade method as declared in the source. -/
def methodName : Method → String
  | Method.getUpdates => "getUpdates"
  | Method.getMe => "getMe"
  | Method.sendMessage => "sendMessage"
  | Method.forwardMessage => "forwardMessage"
  | Method.sendPhoto => "sendPhoto"
  | Method.sendAudio => "sendAudio"
  | Method.sendDocument => "sendDocument"
  | Method.sendVideo => "sendVideo"
  | Method.sendAnimation => "sendAnimation"
  | Method.sendVoice => "sendVoice"
  | Method.sendVideoNote => "sendVideoNote"
  | Method.sendMediaGroup => "sendMediaGroup"
  | Method.sendLocation => "sendLocation"
  | Method.editMessageLiveLocation => "editMessageLiveLocation"
  | Method.stopMessageLiveLocation => "stopMessageLiveLocation"
  | Method.sendVenue => "sendVenue"
  | Method.sendContact => "sendContact"
  | Method.sendPoll => "sendPoll"
  | Method.sendChatAction => "sendChatAction"
  | Method.getUserProfilePhotos => "getUserProfilePhotos"
  | Method.getFile => "getFile"
  | Method.kickChatMember => "kickChatMember"
  | Method.unbanChatMember => "unbanChatMember"
  | Method.restrictChatMember => "restrictChatMember"
  | Method.promoteChatMember => "promoteChatMember"
  | Method.exportChatInviteLink => "exportChatInviteLink"
  | Method.setChatPhoto => "setChatPhoto"
  | Method.deleteChatPhoto => "deleteChatPhoto"
  | Method.setChatTitle => "setChatTitle"
  | Method.setChatDescription => "setChatDescription"
  | Method.pinChatMessage => "pinChatMessage"
  | Method.unpinChatMessage => "unpinChatMessage"
  | Method.leaveChat => "leaveChat"
  | Method.getChat => "getChat"
  | Method.getChatAdministrators => "getChatAdministrators"
  | Method.getChatMembersCount => "getChatMembersCount"
  | Method.getChatMember => "getChatMember"
  | Method.setChatStickerSet => "setChatStickerSet"
  | Method.deleteChatStickerSet => "deleteChatStickerSet"
  | Method.answerCallbackQuery => "answerCallbackQuery"
  | Method.editMessageText => "editMessageText"
  | Method.editMessageCaption => "editMessageCaption"
  | Method.editMessageMedia => "editMessageMedia"
  | Method.editMessageReplyMarkup => "editMessageReplyMarkup"
  | Method.stopPoll => "stopPoll"
  | Method.deleteMessage => "deleteMessage"
  | Method.sendSticker => "sendSticker"
  | Method.getStickerSet => "getStickerSet"
  | Method.uploadStickerFile => "uploadStickerFile"
  | Method.createNewStickerSet => "createNewStickerSet"
  | Method.addStickerToSet => "addStickerToSet"
  | Method.setStickerPositionInSet => "setStickerPositionInSet"
  | Method.deleteStickerFromSet => "deleteStickerFromSet"
  | Method.sendInvoice => "sendInvoice"
  | Method.answerShippingQuery => "answerShippingQuery"
  | Method.answerPreCheckoutQuery => "answerPreCheckoutQuery"
  | Method.sendGame => "sendGame"
  | Method.setGameScore => "setGameScore"
  | Method.getGameHighScore => "getGameHighScore"

/-- The first argument each facade method passes to doCall, transcribed
from the source: every method passes this.<method>.name - its own name -
except stopPoll (src/telegram.service.ts line 703 and
src/telegram/telegram.service.ts line 549), which passes
this.editMessageReplyMarkup.name. -/
def dispatchSegment : Method → String
  | Method.stopPoll => "editMessageReplyMarkup"
  | m => methodName m

/-- The multipart content type string used by the facade methods. -/
def multipartFormData : String := "multipart/form-data"

/-- The JSON content type string used by the facade methods. -/
def applicationJson : String := "application/json"

/-- The Content-Type header value each facade method of
src/telegram.service.ts puts in its axiosOptions, as a function of the
data argument; none when the method passes no axiosOptions.  Transcribed
per method from the source: the file methods test typeof on their media
field - and, where the source does so, on data.thumb - choosing multipart
for objects and JSON otherwise; sendMediaGroup, setChatPhoto,
editMessageMedia and uploadStickerFile hard-code multipart. -/
def methodContentType : Method → JsValue → Option String
  | Method.sendPhoto, data =>
      some (if typeofIsObject (jsGet data "photo")
            then multipartFormData else applicationJson)
  | Method.sendAudio, data =>
      some (if typeofIsObject (jsGet data "audio") || typeofIsObject (jsGet data "thumb")
            then multipartFormData else applicationJson)
  | Method.sendDocument, data =>
      some (if typeofIsObject (jsGet data "document") || typeofIsObject (jsGet data "thumb")
            then multipartFormData else applicationJson)
  | Method.sendVideo, data =>
      some (if typeofIsObject (jsGet data "video") || typeofIsObject (jsGet data "thumb")
            then multipartFormData else applicationJson)
  | Method.sendAnimation, data =>
      some (if typeofIsObject (jsGet data "animation") || typeofIsObject (jsGet data "thumb")
            then multipartFormData else applicationJson)
  | Method.sendVoice, data =>
      some (if typeofIsObject (jsGet data "voice") || typeofIsObject (jsGet data "thumb")
            then multipartFormData else applicationJson)
  | Method.sendVideoNote, data =>
      some (if typeofIsObject (jsGet data "video_note") || typeofIsObject (jsGet data "thumb")
            then multipartFormData else applicationJson)
  | Method.sendSticker, data =>
      some (if typeofIsObject (jsGet data "sticker")
            then multipartFormData else applicationJson)
  | Method.createNewStickerSet, data =>
      some (if typeofIsObject (jsGet data "png_sticker")
            then multipartFormData else applicationJson)
  | Method.addStickerToSet, data =>
      some (if typeofIsObject (jsGet data "png_sticker")
            then multipartFormData else applicationJson)
  | Method.sendMediaGroup, _ => some multipartFormData
  | Method.setChatPhoto, _ => some multipartFormData
  | Method.editMessageMedia, _ => some multipartFormData
  | Method.uploadStickerFile, _ => some multipartFormData
  | _, _ => none

/-- One HTTP POST as doCall hands it to the transport: the full URL, the
parameter object as the body, and the Content-Type header when the
facade supplied axiosOptions. -/
structure Request where
  url : String
  body : JsValue
  contentType : Option String
  deriving Repr

/-- The mutable state of the service instance: the single url field,
written once by onModuleInit. -/
structure ServiceState where
  url : String
  deriving Repr, DecidableEq

/-- onModuleInit of src/telegram.service.ts lines 20-22: the url field
becomes the Telegram bot base address with the configured bot token
interpolated. -/
def onModuleInit (botKey : String) : ServiceState :=
  ServiceState.mk ("https://api.telegram.org/bot" ++ botKey ++ "/")

/-- The POST request a facade method issues: doCall posts to this.url
concatenated with the segment it was given, with the data object as the
body and the method-specific axiosOptions headers. -/
def facadeRequest (st : ServiceState) (m : Method) (data : JsValue) : Request :=
  Request.mk (st.url ++ dispatchSegment m) data (methodContentType m data)

/-- getMe passes an empty object literal as the data argument. -/
def getMeData : JsValue := JsValue.obj []

/-- One full getMe call against a transport: the request it issues, the
outcome delivered to the subscriber, and the service state afterwards.
The body of getMe (and of doCall) contains no assignment, so the state
is returned unchanged. -/
def getMeCall (st : ServiceState) (transport : Request → TransportResult) :
    Request × Except TelegramException (Option JsValue) × ServiceState :=
  (facadeRequest st Method.getMe getMeData,
   doCallOutcome (transport (facadeRequest st Method.getMe getMeData)),
   st)

/-- Two successive getMe calls against the same transport, collecting the
requests issued in order and both outcomes. -/
def getMeTwice (st : ServiceState) (transport : Request → TransportResult) :
    List Request × (Except TelegramException (Option JsValue) ×
      Except TelegramException (Option JsValue)) × ServiceState :=
  ((getMeCall st transport).1 ::
     [(getMeCall (getMeCall st transport).2.2 transport).1],
   ((getMeCall st transport).2.1,
    (getMeCall (getMeCall st transport).2.2 transport).2.1),
   (getMeCall (getMeCall st transport).2.2 transport).2.2)

/-- C2: the claim that every facade method dispatches under its own name
fails at stopPoll, which passes the editMessageReplyMarkup name to doCall
even though its own name is stopPoll; every other method dispatches under
its own name. -/
theorem c2_stopPoll_dispatches_elsewhere :
    methodName Method.stopPoll = "stopPoll" ∧
    dispatchSegment Method.stopPoll = "editMessageReplyMarkup" ∧
    dispatchSegment Method.stopPoll ≠ "stopPoll" ∧
    ∀ m : Method, dispatchSegment m = methodName m ∨ m = Method.stopPoll := by
  refine ⟨rfl, rfl, by decide, ?_⟩
  intro m
  cases m <;> simp [dispatchSegment, methodName]

/-- C8: after initialization with a bot token, every facade method posts
to exactly the base address with the token interpolated followed by its
dispatch path segment, with the parameter object as the POST body. -/
theorem c8_request_url_and_body :
    ∀ (botKey : String) (m : Method) (data : JsValue),
      (facadeRequest (onModuleInit botKey) m data).url =
          "https://api.telegram.org/bot" ++ botKey ++ "/" ++ dispatchSegment m ∧
      (facadeRequest (onModuleInit botKey) m data).body = data := by
  intro botKey m data
  exact ⟨rfl, rfl⟩

/-- C7: two getMe calls against the same transport issue two separate
identical POSTs, deliver identical outcomes, and leave the service state
exactly as it was; no caching and no mutation beyond the one-time url
initialization occur. -/
theorem c7_getMe_twice_stateless :
    ∀ (st : ServiceState) (transport : Request → TransportResult),
      (getMeTwice st transport).1.length = 2 ∧
      (getMeTwice st transport).1 =
        [facadeRequest st Method.getMe getMeData,
         facadeRequest st Method.getMe getMeData] ∧
      (getMeTwice st transport).2.1.1 = (getMeTwice st transport).2.1.2 ∧
      (getMeTwice st transport).2.2 = st := by
  intro st transport
  exact ⟨rfl, rfl, rfl, rfl⟩

/-- A field holds binary data: its value is a Buffer. -/
def isBufferField : Option JsValue → Bool
  | some (JsValue.buffer _) => true
  | _ => false

/-- A field holds a string (URL or pre-uploaded file identifier). -/
def isStringField : Option JsValue → Bool
  | some (JsValue.str _) => true
  | _ => false

/-- A required file-like field is well typed per the parameter interfaces
(Buffer | string). -/
def fileTyped (v : Option JsValue) : Bool := isBufferField v || isStringField v

/-- An optional file-like field is well typed: absent or Buffer | string. -/
def optFileTyped (v : Option JsValue) : Bool := v.isNone || fileTyped v

/-- On a well-typed required file field the typeof-object test is exactly
the Buffer test. -/
theorem typeof_of_fileTyped (v : Option JsValue) (h : fileTyped v = true) :
    typeofIsObject v = isBufferField v := by
  cases v with
  | none => rfl
  | some x =>
    cases x <;> first
      | rfl
      | simp [fileTyped, isBufferField, isStringField] at h

/-- On a well-typed optional file field the typeof-object test is exactly
the Buffer test; an absent field fails both. -/
theorem typeof_of_optFileTyped (v : Option JsValue) (h : optFileTyped v = true) :
    typeofIsObject v = isBufferField v := by
  cases v with
  | none => rfl
  | some x =>
    cases x <;> first
      | rfl
      | simp [optFileTyped, fileTyped, isBufferField, isStringField] at h

/-- The content-type conditional selects multipart exactly when its test
is true. -/
theorem some_ifCT_mp (b : Bool) :
    (some (if b then multipartFormData else applicationJson) =
      some multipartFormData) ↔ b = true := by
  cases b <;> decide

/-- The content-type conditional selects JSON exactly when its test is
false. -/
theorem some_ifCT_js (b : Bool) :
    (some (if b then multipartFormData else applicationJson) =
      some applicationJson) ↔ b = false := by
  cases b <;> decide

/-- sendPhoto parameters of the spec example with binary photo content. -/
def photoBufferParams : JsValue :=
  JsValue.obj [("chat_id", JsValue.num 8754), ("photo", JsValue.buffer [1, 2, 3])]

/-- sendPhoto parameters of the spec example with a URL photo. -/
def photoUrlParams : JsValue :=
  JsValue.obj [("chat_id", JsValue.num 8754), ("photo", JsValue.str "http://example.com/a.png")]

/-- C4: for each facade method accepting a file-like parameter, the
request carries the multipart content type exactly when the media field
- or, for the methods whose source also inspects it, the thumb field -
holds a Buffer, and the JSON content type when those well-typed fields
hold strings or are absent; in particular the spec sendPhoto examples
with chat id 8754 select multipart for a Buffer photo and JSON for a URL
photo. -/
theorem c4_file_content_type_selection :
    ∀ data : JsValue,
      (fileTyped (jsGet data "photo") = true →
        ((methodContentType Method.sendPhoto data = some multipartFormData ↔
            isBufferField (jsGet data "photo") = true) ∧
         (methodContentType Method.sendPhoto data = some applicationJson ↔
            isBufferField (jsGet data "photo") = false))) ∧
      (fileTyped (jsGet data "audio") = true →
        optFileTyped (jsGet data "thumb") = true →
        ((methodContentType Method.sendAudio data = some multipartFormData ↔
            (isBufferField (jsGet data "audio") ||
             isBufferField (jsGet data "thumb")) = true) ∧
         (methodContentType Method.sendAudio data = some applicationJson ↔
            (isBufferField (jsGet data "audio") ||
             isBufferField (jsGet data "thumb")) = false))) ∧
      (fileTyped (jsGet data "document") = true →
        optFileTyped (jsGet data "thumb") = true →
        ((methodContentType Method.sendDocument data = some multipartFormData ↔
            (isBufferField (jsGet data "document") ||
             isBufferField (jsGet data "thumb")) = true) ∧
         (methodContentType Method.sendDocument data = some applicationJson ↔
            (isBufferField (jsGet data "document") ||
             isBufferField (jsGet data "thumb")) = false))) ∧
      (fileTyped (jsGet data "video") = true →
        optFileTyped (jsGet data "thumb") = true →
        ((methodContentType Method.sendVideo data = some multipartFormData ↔
            (isBufferField (jsGet data "video") ||
             isBufferField (jsGet data "thumb")) = true) ∧
         (methodContentType Method.sendVideo data = some applicationJson ↔
            (isBufferField (jsGet data "video") ||
             isBufferField (jsGet data "thumb")) = false))) ∧
      (fileTyped (jsGet data "animation") = true →
        optFileTyped (jsGet data "thumb") = true →
        ((methodContentType Method.sendAnimation data = some multipartFormData ↔
            (isBufferField (jsGet data "animation") ||
             isBufferField (jsGet data "thumb")) = true) ∧
         (methodContentType Method.sendAnimation data = some applicationJson ↔
            (isBufferField (jsGet data "animation") ||
             isBufferField (jsGet data "thumb")) = false))) ∧
      (fileTyped (jsGet data "voice") = true →
        optFileTyped (jsGet data "thumb") = true →
        ((methodContentType Method.sendVoice data = some multipartFormData ↔
            (isBufferField (jsGet data "voice") ||
             isBufferField (jsGet data "thumb")) = true) ∧
         (methodContentType Method.sendVoice data = some applicationJson ↔
            (isBufferField (jsGet data "voice") ||
             isBufferField (jsGet data "thumb")) = false))) ∧
      (fileTyped (jsGet data "video_note") = true →
        optFileTyped (jsGet data "thumb") = true →
        ((methodContentType Method.sendVideoNote data = some multipartFormData ↔
            (isBufferField (jsGet data "video_note") ||
             isBufferField (jsGet data "thumb")) = true) ∧
         (methodContentType Method.sendVideoNote data = some applicationJson ↔
            (isBufferField (jsGet data "video_note") ||
             isBufferField (jsGet data "thumb")) = false))) ∧
      (fileTyped (jsGet data "sticker") = true →
        ((methodContentType Method.sendSticker data = some multipartFormData ↔
            isBufferField (jsGet data "sticker") = true) ∧
         (methodContentType Method.sendSticker data = some applicationJson ↔
            isBufferField (jsGet data "sticker") = false))) ∧
      (fileTyped (jsGet data "png_sticker") = true →
        ((methodContentType Method.createNewStickerSet data = some multipartFormData ↔
            isBufferField (jsGet data "png_sticker") = true) ∧
         (methodContentType Method.createNewStickerSet data = some applicationJson ↔
            isBufferField (jsGet data "png_sticker") = false))) ∧
      (fileTyped (jsGet data "png_sticker") = true →
        ((methodContentType Method.addStickerToSet data = some multipartFormData ↔
            isBufferField (jsGet data "png_sticker") = true) ∧
         (methodContentType Method.addStickerToSet data = some applicationJson ↔
            isBufferField (jsGet data "png_sticker") = false))) ∧
      methodContentType Method.sendPhoto photoBufferParams = some multipartFormData ∧
      methodContentType Method.sendPhoto photoUrlParams = some applicationJson := by
  intro data
  refine ⟨?_, ?_, ?_, ?_, ?_, ?_, ?_, ?_, ?_, ?_, rfl, rfl⟩
  · intro h
    simp only [methodContentType, typeof_of_fileTyped _ h]
    exact ⟨some_ifCT_mp _, some_ifCT_js _⟩
  · intro h ht
    simp only [methodContentType, typeof_of_fileTyped _ h, typeof_of_optFileTyped _ ht]
    exact ⟨some_ifCT_mp _, some_ifCT_js _⟩
  · intro h ht
    simp only [methodContentType, typeof_of_fileTyped _ h, typeof_of_optFileTyped _ ht]
    exact ⟨some_ifCT_mp _, some_ifCT_js _⟩
  · intro h ht
    simp only [methodContentType, typeof_of_fileTyped _ h, typeof_of_optFileTyped _ ht]
    exact ⟨some_ifCT_mp _, some_ifCT_js _⟩
  · intro h ht
    simp only [methodContentType, typeof_of_fileTyped _ h, typeof_of_optFileTyped _ ht]
    exact ⟨some_ifCT_mp _, some_ifCT_js _⟩
  · intro h ht
    simp only [methodContentType, typeof_of_fileTyped _ h, typeof_of_optFileTyped _ ht]
    exact ⟨some_ifCT_mp _, some_ifCT_js _⟩
  · intro h ht
    simp only [methodContentType, typeof_of_fileTyped _ h, typeof_of_optFileTyped _ ht]
    exact ⟨some_ifCT_mp _, some_ifCT_js _⟩
  · intro h
    simp only [methodContentType, typeof_of_fileTyped _ h]
    exact ⟨some_ifCT_mp _, some_ifCT_js _⟩
  · intro h
    simp only [methodContentType, typeof_of_fileTyped _ h]
    exact ⟨some_ifCT_mp _, some_ifCT_js _⟩
  · intro h
    simp only [methodContentType, typeof_of_fileTyped _ h]
    exact ⟨some_ifCT_mp _, some_ifCT_js _⟩

/-- Witness for C4 at the concrete binary-photo input of the spec
example. -/
theorem c4_file_content_type_selection_witness :
    fileTyped (jsGet photoBufferParams "photo") = true ∧
    (methodContentType Method.sendPhoto photoBufferParams = some multipartFormData ↔
      isBufferField (jsGet photoBufferParams "photo") = true) ∧
    (methodContentType Method.sendPhoto photoBufferParams = some applicationJson ↔
      isBufferField (jsGet photoBufferParams "photo") = false) :=
  ⟨by decide, (c4_file_content_type_selection photoBufferParams).1 (by decide)⟩

/-- Per-call options of the promise-variant service.  Modelled from the
spec and from the in-repo usage (the interfaces file of the promise
variant is not among the sources): an object with an optional promise
flag, as read by doCall (options.promise) and passed by the sample
service as an object with promise true. -/
structure APIOptions where
  promise : Option Bool
  deriving Repr, DecidableEq

/-- Module options of the promise-variant service.  Modelled from the
spec: a bot token and an optional flag selecting promise-style delivery,
as read by onModuleInit (options.botKey, options.promise). -/
structure PromiseModuleOptions where
  botKey : String
  promise : Option Bool
  deriving Repr, DecidableEq

/-- State of the promise-variant service: the url and usePromise fields,
both written once by onModuleInit. -/
structure PromiseServiceState where
  url : String
  usePromise : Bool
  deriving Repr, DecidableEq

/-- onModuleInit of src/telegram/telegram.service.ts lines 19-22: the
url is the bot base address with the token interpolated, and usePromise
is this.options.promise short-circuit-or false. -/
def promiseOnModuleInit (o : PromiseModuleOptions) : PromiseServiceState :=
  PromiseServiceState.mk ("https://api.telegram.org/bot" ++ o.botKey ++ "/")
    (o.promise.getD false)

/-- A one-shot rxjs observable as the piped callout of doCall produces
it: the values emitted before completion, or an error terminal. -/
structure Obs (α : Type) where
  emissions : List α
  failed : Option TelegramException
  deriving Repr

/-- The piped callout observable of the promise-variant doCall
(src/telegram/telegram.service.ts lines 30-45; the pipe is identical to
the stream variant): on a successful unwrap it emits the one value and
completes, otherwise it terminates with the rewrapped error. -/
def calloutObs (t : TransportResult) : Obs (Option JsValue) :=
  match doCallOutcome t with
  | Except.ok v => Obs.mk [v] none
  | Except.error e => Obs.mk [] (some e)

/-- Outcome of a JavaScript promise: resolved with a value (undefined
when the observable completed without emitting) or rejected with an
error. -/
inductive PromiseResult (α : Type) where
  | resolved (v : Option α)
  | rejected (e : TelegramException)
  deriving Repr

/-- Observable.toPromise of rxjs: rejects with the error terminal if
there is one, otherwise resolves with the last emitted value. -/
def Obs.toPromise (o : Obs α) : PromiseResult α :=
  match o.failed with
  | some e => PromiseResult.rejected e
  | none => PromiseResult.resolved o.emissions.getLast?

/-- The ServiceResponse<T> union of the promise variant: an observable
or a promise, whichever delivery doCall selected. -/
inductive ServiceResponse (α : Type) where
  | stream (o : Obs α)
  | oneShot (p : PromiseResult α)
  deriving Repr

/-- Stand-in for the engine message of the TypeError raised when
options.promise is read while options is undefined. -/
def typeErrorMessagePromise : String :=
  "Cannot read properties of undefined (reading promise)"

/-- doCall of the promise variant (src/telegram/telegram.service.ts
lines 24-50): build the callout for the posted request, then read
options.promise - a synchronous TypeError when the optional options
argument was not supplied - and select promise delivery when the
per-call flag or the module-level usePromise flag is set, stream
delivery otherwise. -/
def doCallPromiseVariant (st : PromiseServiceState) (url : String)
    (data : JsValue) (options : Option APIOptions) (ct : Option String)
    (transport : Request → TransportResult) :
    Except String (ServiceResponse (Option JsValue)) :=
  let req := Request.mk (st.url ++ url) data ct
  match options with
  | none => Except.error typeErrorMessagePromise
  | some o =>
    let callout := calloutObs (transport req)
    if o.promise.getD false || st.usePromise then
      Except.ok (ServiceResponse.oneShot callout.toPromise)
    else
      Except.ok (ServiceResponse.stream callout)

/-- getMe of the promise variant: delegates to doCall with its own name,
an empty object, and the caller-supplied options. -/
def promiseVariantGetMe (st : PromiseServiceState)
    (options : Option APIOptions) (transport : Request → TransportResult) :
    Except String (ServiceResponse (Option JsValue)) :=
  doCallPromiseVariant st "getMe" (JsValue.obj []) options none transport

/-- C9: in the promise-variant service, any call whose optional options
argument is absent makes doCall read options.promise off undefined and
fail synchronously with a TypeError, whatever the module-level flag and
the rest of the call; in particular getMe() without options does. -/
theorem c9_missing_options_type_error :
    (∀ (st : PromiseServiceState) (url : String) (data : JsValue)
        (ct : Option String) (transport : Request → TransportResult),
      doCallPromiseVariant st url data none ct transport =
        Except.error typeErrorMessagePromise) ∧
    ∀ (st : PromiseServiceState) (transport : Request → TransportResult),
      promiseVariantGetMe st none transport =
        Except.error typeErrorMessagePromise := by
  exact ⟨fun _ _ _ _ _ => rfl, fun _ _ => rfl⟩

/-- A transport that always answers with a successful empty-object
envelope, for the concrete C3 counterexample. -/
def okTransport : Request → TransportResult :=
  fun _ => TransportResult.response
    (TelegramResponse.mk true (some (JsValue.obj [])) none none)

/-- C3 counterexample: with the module-level promise flag set and the
per-call options argument omitted, getMe does not return a one-shot
promise mirroring the stream delivery - it fails synchronously with the
options.promise TypeError, so promise delivery selected through the
module flag is not semantics-preserving for every input. -/
theorem c3_module_flag_without_options_crashes :
    promiseVariantGetMe
        (promiseOnModuleInit (PromiseModuleOptions.mk "someBotKey" (some true)))
        none okTransport =
      Except.error typeErrorMessagePromise := by
  rfl

/-- C3 as amended: whenever the per-call options object is supplied and
promise delivery is requested (per-call promise flag or module-level
usePromise), doCall returns the one-shot promise of the very callout the
stream delivery would return, and that promise resolves with exactly the
value the callout emits, or rejects with exactly the error it signals;
with both flags clear the same callout is returned as the stream. -/
theorem c3_promise_delivery_matches_stream :
    ∀ (st : PromiseServiceState) (url : String) (data : JsValue)
      (o : APIOptions) (ct : Option String)
      (transport : Request → TransportResult),
      (o.promise.getD false || st.usePromise) = true →
      doCallPromiseVariant st url data (some o) ct transport =
          Except.ok (ServiceResponse.oneShot
            (Obs.toPromise (calloutObs (transport (Request.mk (st.url ++ url) data ct))))) ∧
      (∀ t : TransportResult,
        (∀ v, doCallOutcome t = Except.ok v →
          (calloutObs t).toPromise = PromiseResult.resolved (some v)) ∧
        (∀ e, doCallOutcome t = Except.error e →
          (calloutObs t).toPromise = PromiseResult.rejected e)) := by
  intro st url data o ct transport h
  constructor
  · simp only [doCallPromiseVariant, h, if_true]
  · intro t
    constructor
    · intro v hv
      simp [calloutObs, hv, Obs.toPromise]
    · intro e he
      simp [calloutObs, he, Obs.toPromise]

/-- Witness for C3 as amended: a per-call options object with promise
true against the constant success transport yields the resolved one-shot
promise of the stream callout. -/
theorem c3_promise_delivery_matches_stream_witness :
    ((APIOptions.mk (some true)).promise.getD false ||
        (promiseOnModuleInit (PromiseModuleOptions.mk "someBotKey" none)).usePromise) = true ∧
    doCallPromiseVariant (promiseOnModuleInit (PromiseModuleOptions.mk "someBotKey" none))
        "getMe" (JsValue.obj []) (some (APIOptions.mk (some true))) none okTransport =
      Except.ok (ServiceResponse.oneShot
        (Obs.toPromise (calloutObs (okTransport
          (Request.mk ((promiseOnModuleInit (PromiseModuleOptions.mk "someBotKey" none)).url ++ "getMe")
            (JsValue.obj []) none))))) :=
  ⟨by decide,
   (c3_promise_delivery_matches_stream
      (promiseOnModuleInit (PromiseModuleOptions.mk "someBotKey" none))
      "getMe" (JsValue.obj []) (APIOptions.mk (some true)) none okTransport
      (by decide)).1⟩

